import Mathlib

/-!
# Verification of the unit converter (`unitconverter.py`)

A shallow embedding of the converter in Lean 4. Python floats are modelled
as exact rationals (`ℚ`); Python dicts over string keys are modelled as
association lists with a lookup function; functions that raise `ValueError`
are modelled with `Except String`, carrying the exact message string used
by the source. Python's string methods (`upper`, `lower`, `strip`,
`split`) are modelled by structurally recursive functions on the string's
character list so that they evaluate on concrete inputs.
-/

namespace UnitConverter

/-- Lookup in an association list with string keys; models Python dict
indexing `D[k]` (`none` models a `KeyError`) and, via `Option.isSome`,
the membership test `k in D`. -/
def dictGet {α : Type} : List (String × α) → String → Option α
  | [], _ => none
  | (k, v) :: rest, s => if s = k then some v else dictGet rest s

/-- Python's `str.upper()` on the characters of a string (the source's unit
symbols are ASCII, where `Char.toUpper` agrees with Python). -/
def pyUpper (s : String) : String := ⟨s.data.map Char.toUpper⟩

/-- Python's `str.lower()` on the characters of a string. -/
def pyLower (s : String) : String := ⟨s.data.map Char.toLower⟩

/-- Python's `str.strip()`: drop whitespace from both ends. -/
def pyStrip (s : String) : String :=
  ⟨(((s.data.dropWhile Char.isWhitespace).reverse.dropWhile Char.isWhitespace).reverse)⟩

/-- Helper for `pySplit`: accumulate the current token (reversed) while
scanning the characters. -/
def splitWsAux : List Char → List Char → List String
  | [], acc => if acc.isEmpty then [] else [⟨acc.reverse⟩]
  | c :: rest, acc =>
    if c.isWhitespace then
      if acc.isEmpty then splitWsAux rest [] else String.mk acc.reverse :: splitWsAux rest []
    else splitWsAux rest (c :: acc)

/-- Python's `str.split()` with no separator: whitespace-delimited tokens,
with no empty tokens. -/
def pySplit (s : String) : List String := splitWsAux s.data []

/-- The length table: symbol → scale factor to meters (`LENGTH_TO_METER`). -/
def LENGTH_TO_METER : List (String × ℚ) :=
  [ ("m", 1.0), ("km", 1000.0), ("cm", 0.01), ("mm", 0.001),
    ("mi", 1609.344), ("yd", 0.9144), ("ft", 0.3048), ("in", 0.0254) ]

/-- The weight table: symbol → scale factor to kilograms (`WEIGHT_TO_KG`). -/
def WEIGHT_TO_KG : List (String × ℚ) :=
  [ ("kg", 1.0), ("g", 0.001), ("mg", 0.000001),
    ("lb", 0.45359237), ("oz", 0.028349523125), ("ton", 1000.0) ]

/-- Source function `c_to_f`: Celsius to Fahrenheit. -/
def c_to_f (c : ℚ) : ℚ := c * 9.0 / 5.0 + 32.0

/-- Source function `f_to_c`: Fahrenheit to Celsius. -/
def f_to_c (f : ℚ) : ℚ := (f - 32.0) * 5.0 / 9.0

/-- Source function `c_to_k`: Celsius to Kelvin. -/
def c_to_k (c : ℚ) : ℚ := c + 273.15

/-- Source function `k_to_c`: Kelvin to Celsius. -/
def k_to_c (k : ℚ) : ℚ := k - 273.15

/-- Source table `TEMP_FUNCS`: nested dispatch table from (from-symbol, to-symbol) to the
conversion function, exactly as built in the source (F→K and K→F are
compositions through Celsius; same-to-same entries are identity lambdas). -/
def TEMP_FUNCS : List (String × List (String × (ℚ → ℚ))) :=
  [ ("C", [ ("F", c_to_f), ("K", c_to_k), ("C", fun x => x) ]),
    ("F", [ ("C", f_to_c), ("K", fun f => c_to_k (f_to_c f)), ("F", fun x => x) ]),
    ("K", [ ("C", k_to_c), ("F", fun k => c_to_f (k_to_c k)), ("K", fun x => x) ]) ]

/-- Source function `convert_length`: look up both symbols in the length table (a missing key
raises `ValueError("Unsupported length unit")`), then normalize to meters and
denormalize to the target. -/
def convert_length (value : ℚ) (from_u to_u : String) : Except String ℚ :=
  match dictGet LENGTH_TO_METER from_u, dictGet LENGTH_TO_METER to_u with
  | some to_m, some from_m => .ok (value * to_m / from_m)
  | _, _ => .error "Unsupported length unit"

/-- Source function `convert_weight`: same algorithm over the weight table. -/
def convert_weight (value : ℚ) (from_u to_u : String) : Except String ℚ :=
  match dictGet WEIGHT_TO_KG from_u, dictGet WEIGHT_TO_KG to_u with
  | some to_kg, some from_kg => .ok (value * to_kg / from_kg)
  | _, _ => .error "Unsupported weight unit"

/-- Source function `convert_temperature`: uppercase both symbols, then index the nested
`TEMP_FUNCS` table; a `KeyError` at either level raises
`ValueError("Unsupported temperature unit")`. -/
def convert_temperature (value : ℚ) (from_u to_u : String) : Except String ℚ :=
  match dictGet TEMP_FUNCS (pyUpper from_u) with
  | none => .error "Unsupported temperature unit"
  | some inner =>
    match dictGet inner (pyUpper to_u) with
    | none => .error "Unsupported temperature unit"
    | some func => .ok (func value)

/-- The message of the dispatcher-level `ValueError` in `detect_and_convert`. -/
def incompatibleMsg : String :=
  "Units belong to different categories or are unsupported"

/-- Source function `detect_and_convert`: try length, then weight, then temperature (symbols
uppercased for the temperature membership test); otherwise raise the single
incompatible-or-unsupported-units error. -/
def detect_and_convert (value : ℚ) (from_u to_u : String) : Except String ℚ :=
  if (dictGet LENGTH_TO_METER from_u).isSome && (dictGet LENGTH_TO_METER to_u).isSome then
    convert_length value from_u to_u
  else if (dictGet WEIGHT_TO_KG from_u).isSome && (dictGet WEIGHT_TO_KG to_u).isSome then
    convert_weight value from_u to_u
  else if (dictGet TEMP_FUNCS (pyUpper from_u)).isSome && (dictGet TEMP_FUNCS (pyUpper to_u)).isSome then
    convert_temperature value from_u to_u
  else
    .error incompatibleMsg

/-- The numeral value of a digit string. -/
def digitsVal (cs : List Char) : ℕ :=
  cs.foldl (fun n c => n * 10 + (c.toNat - 48)) 0

/-- Split a character list at each occurrence of `sep`, keeping empty pieces
(the behaviour of Python's `str.split(sep)` with an explicit separator). -/
def splitOnCharAux (sep : Char) : List Char → List Char → List (List Char)
  | [], acc => [acc.reverse]
  | c :: rest, acc =>
    if c = sep then acc.reverse :: splitOnCharAux sep rest []
    else splitOnCharAux sep rest (c :: acc)

/-- Modelled from the spec: the unsigned part of the decimal-literal grammar
accepted by Python's built-in `float(...)` (which is not part of this
repository's source) — digits, or digits on either side of a single dot,
with at least one digit in total. -/
def parseUnsignedChars (cs : List Char) : Option ℚ :=
  match splitOnCharAux '.' cs [] with
  | [ip] =>
    if ip ≠ [] ∧ ip.all Char.isDigit then some (digitsVal ip) else none
  | [ip, fp] =>
    if (ip ≠ [] ∨ fp ≠ []) ∧ ip.all Char.isDigit ∧ fp.all Char.isDigit then
      some ((digitsVal ip : ℚ) + (digitsVal fp : ℚ) / (10 ^ fp.length))
    else none
  | _ => none

/-- Modelled from the spec: Python's `float(token)` on the value token,
returning `none` where Python raises `ValueError` (the spec's
`InvalidNumber` condition), restricted faithfully to the spec's "parseable
as a real number" — plain decimal literals with an optional sign. -/
def parseFloat (s : String) : Option ℚ :=
  match (pyStrip s).data with
  | '-' :: rest => (parseUnsignedChars rest).map (fun q => -q)
  | '+' :: rest => parseUnsignedChars rest
  | cs => parseUnsignedChars cs

/-- Outcome of processing one interactive input line; `exitCmd` breaks the
read-eval loop, every other outcome continues it. -/
inductive LineOut
  | blank
  | exitCmd
  | helpCmd
  | usage
  | invalidNumber
  | converted (value : ℚ) (from_u to_u : String) (result : ℚ)
  | convError (msg : String)
  deriving DecidableEq

/-- The body of the `interactive` loop for one input line: strip, skip blank
lines, recognize the control words `exit`/`quit` and `help`/`h`/`?` when the
whole lowercased line equals one of them, otherwise whitespace-tokenize and
require exactly three tokens, parse the first as a number, and dispatch. -/
def process_line (line : String) : LineOut :=
  let raw := pyStrip line
  if raw = "" then .blank
  else if pyLower raw ∈ ["exit", "quit"] then .exitCmd
  else if pyLower raw ∈ ["help", "h", "?"] then .helpCmd
  else
    match pySplit raw with
    | [p0, p1, p2] =>
      match parseFloat p0 with
      | none => .invalidNumber
      | some val =>
        match detect_and_convert val p1 p2 with
        | .ok out => .converted val p1 p2 out
        | .error e => .convError e
    | _ => .usage

/-- The help-request tokens accepted as the first CLI argument. -/
def helpTokens : List String := ["-h", "--help", "help"]

/-- Source function `main`: exit status of a process invocation with the given argument list.
No arguments → interactive mode, whose loop always ends cleanly → status 0;
help token first or fewer than three arguments → help text, status 0;
unparseable value token → status 1; dispatch failure → status 2; successful
conversion → status 0. Extra arguments beyond the first three are ignored. -/
def main (argv : List String) : ℕ :=
  match argv with
  | [] => 0
  | a :: rest =>
    if a ∈ helpTokens ∨ rest.length < 2 then 0
    else
      match rest with
      | f :: t :: _ =>
        match parseFloat a with
        | none => 1
        | some value =>
          match detect_and_convert value f t with
          | .ok _ => 0
          | .error _ => 2
      | _ => 0


/-! ## Supporting lemmas -/

/-- Every scale factor in the length table is strictly positive. -/
theorem length_factor_pos (s : String) (q : ℚ)
    (h : dictGet LENGTH_TO_METER s = some q) : 0 < q := by
  simp only [dictGet, LENGTH_TO_METER] at h
  split_ifs at h <;> simp_all <;> norm_num [← h]

/-! ## The claims -/

/-- C1: the dispatcher tries length first (both symbols present,
case-sensitively, in the length table), then weight, then temperature (both
symbols uppercased and in the temperature table); if no step matches it fails
with the single incompatible-or-unsupported-units error, and in particular a
mixed-category pair such as cm→kg or an unrecognized symbol always fails. -/
theorem dispatcher_order_and_failure :
    (∀ (v : ℚ) (f t : String),
        ((dictGet LENGTH_TO_METER f).isSome && (dictGet LENGTH_TO_METER t).isSome) = true →
        detect_and_convert v f t = convert_length v f t) ∧
    (∀ (v : ℚ) (f t : String),
        ¬ ((dictGet LENGTH_TO_METER f).isSome && (dictGet LENGTH_TO_METER t).isSome) = true →
        ((dictGet WEIGHT_TO_KG f).isSome && (dictGet WEIGHT_TO_KG t).isSome) = true →
        detect_and_convert v f t = convert_weight v f t) ∧
    (∀ (v : ℚ) (f t : String),
        ¬ ((dictGet LENGTH_TO_METER f).isSome && (dictGet LENGTH_TO_METER t).isSome) = true →
        ¬ ((dictGet WEIGHT_TO_KG f).isSome && (dictGet WEIGHT_TO_KG t).isSome) = true →
        ((dictGet TEMP_FUNCS (pyUpper f)).isSome && (dictGet TEMP_FUNCS (pyUpper t)).isSome) = true →
        detect_and_convert v f t = convert_temperature v f t) ∧
    (∀ (v : ℚ) (f t : String),
        ¬ ((dictGet LENGTH_TO_METER f).isSome && (dictGet LENGTH_TO_METER t).isSome) = true →
        ¬ ((dictGet WEIGHT_TO_KG f).isSome && (dictGet WEIGHT_TO_KG t).isSome) = true →
        ¬ ((dictGet TEMP_FUNCS (pyUpper f)).isSome && (dictGet TEMP_FUNCS (pyUpper t)).isSome) = true →
        detect_and_convert v f t = .error incompatibleMsg) ∧
    (∀ v : ℚ, detect_and_convert v "cm" "kg" = .error incompatibleMsg) ∧
    (∀ v : ℚ, detect_and_convert v "xx" "m" = .error incompatibleMsg) := by
  refine ⟨?_, ?_, ?_, ?_, fun v => rfl, fun v => rfl⟩
  · intro v f t h
    simp [detect_and_convert, h]
  · intro v f t h1 h2
    simp [detect_and_convert, h1, h2]
  · intro v f t h1 h2 h3
    simp [detect_and_convert, h1, h2, h3]
  · intro v f t h1 h2 h3
    simp [detect_and_convert, h1, h2, h3]

/-- Witness for C1: the dispatcher picks length for cm→m, weight for g→kg,
temperature for C→F, and errors on xx→yy. -/
theorem dispatcher_order_and_failure_witness :
    detect_and_convert 1 "cm" "m" = convert_length 1 "cm" "m" ∧
    detect_and_convert 1 "g" "kg" = convert_weight 1 "g" "kg" ∧
    detect_and_convert 1 "C" "F" = convert_temperature 1 "C" "F" ∧
    detect_and_convert 1 "xx" "yy" = .error incompatibleMsg :=
  ⟨dispatcher_order_and_failure.1 1 "cm" "m" (by decide),
   dispatcher_order_and_failure.2.1 1 "g" "kg" (by decide) (by decide),
   dispatcher_order_and_failure.2.2.1 1 "C" "F" (by decide) (by decide) (by decide),
   dispatcher_order_and_failure.2.2.2.1 1 "xx" "yy" (by decide) (by decide) (by decide)⟩

/-- C2: the temperature formulas are C→F: v·9/5+32, F→C: (v−32)·5/9,
C→K: v+273.15, K→C: v−273.15; F→K and K→F are the compositions through
Celsius; every same-to-same conversion is the identity. -/
theorem temperature_conversion_formulas :
    ∀ v : ℚ,
      convert_temperature v "C" "F" = .ok (v * 9 / 5 + 32) ∧
      convert_temperature v "F" "C" = .ok ((v - 32) * 5 / 9) ∧
      convert_temperature v "C" "K" = .ok (v + 273.15) ∧
      convert_temperature v "K" "C" = .ok (v - 273.15) ∧
      convert_temperature v "F" "K" = .ok (c_to_k (f_to_c v)) ∧
      convert_temperature v "K" "F" = .ok (c_to_f (k_to_c v)) ∧
      convert_temperature v "C" "C" = .ok v ∧
      convert_temperature v "F" "F" = .ok v ∧
      convert_temperature v "K" "K" = .ok v := by
  intro v
  refine ⟨?_, ?_, ?_, ?_, rfl, rfl, rfl, rfl, rfl⟩
  · simp [convert_temperature, dictGet, TEMP_FUNCS, pyUpper, c_to_f]
    norm_num
  · simp [convert_temperature, dictGet, TEMP_FUNCS, pyUpper, f_to_c]
    norm_num
  · simp [convert_temperature, dictGet, TEMP_FUNCS, pyUpper, c_to_k]
  · simp [convert_temperature, dictGet, TEMP_FUNCS, pyUpper, k_to_c]

/-- C3: the length and weight converters return exactly
(v · scaleFactor(from)) / scaleFactor(to), fail with the category's
unsupported-unit error when either symbol is absent, and the tables hold
exactly the constants listed in the spec. -/
theorem scaled_conversion_formula :
    (∀ (v : ℚ) (f t : String) (a b : ℚ),
        dictGet LENGTH_TO_METER f = some a → dictGet LENGTH_TO_METER t = some b →
        convert_length v f t = .ok (v * a / b)) ∧
    (∀ (v : ℚ) (f t : String),
        dictGet LENGTH_TO_METER f = none ∨ dictGet LENGTH_TO_METER t = none →
        convert_length v f t = .error "Unsupported length unit") ∧
    (∀ (v : ℚ) (f t : String) (a b : ℚ),
        dictGet WEIGHT_TO_KG f = some a → dictGet WEIGHT_TO_KG t = some b →
        convert_weight v f t = .ok (v * a / b)) ∧
    (∀ (v : ℚ) (f t : String),
        dictGet WEIGHT_TO_KG f = none ∨ dictGet WEIGHT_TO_KG t = none →
        convert_weight v f t = .error "Unsupported weight unit") ∧
    LENGTH_TO_METER.map Prod.fst = ["m", "km", "cm", "mm", "mi", "yd", "ft", "in"] ∧
    LENGTH_TO_METER.map Prod.snd =
      [1, 1000, 1/100, 1/1000, 1609344/1000, 9144/10000, 3048/10000, 254/10000] ∧
    WEIGHT_TO_KG.map Prod.fst = ["kg", "g", "mg", "lb", "oz", "ton"] ∧
    WEIGHT_TO_KG.map Prod.snd =
      [1, 1/1000, 1/1000000, 45359237/100000000, 28349523125/1000000000000, 1000] := by
  refine ⟨?_, ?_, ?_, ?_, rfl, ?_, rfl, ?_⟩
  · intro v f t a b hf ht
    simp [convert_length, hf, ht]
  · intro v f t h
    rcases h with h | h
    · simp [convert_length, h]
    · cases hf : dictGet LENGTH_TO_METER f <;> simp [convert_length, h, hf]
  · intro v f t a b hf ht
    simp [convert_weight, hf, ht]
  · intro v f t h
    rcases h with h | h
    · simp [convert_weight, h]
    · cases hf : dictGet WEIGHT_TO_KG f <;> simp [convert_weight, h, hf]
  · norm_num [LENGTH_TO_METER]
  · norm_num [WEIGHT_TO_KG]

/-- Witness for C3: km→m multiplies by 1000 and divides by 1; an unknown
symbol on either side yields the category's unsupported-unit error. -/
theorem scaled_conversion_formula_witness :
    convert_length 2 "km" "m" = .ok (2 * 1000.0 / 1.0) ∧
    convert_length 1 "xx" "m" = .error "Unsupported length unit" ∧
    convert_weight 2 "kg" "lb" = .ok (2 * 1.0 / 0.45359237) ∧
    convert_weight 1 "kg" "xx" = .error "Unsupported weight unit" :=
  ⟨scaled_conversion_formula.1 2 "km" "m" 1000.0 1.0 rfl rfl,
   scaled_conversion_formula.2.1 1 "xx" "m" (Or.inl rfl),
   scaled_conversion_formula.2.2.1 2 "kg" "lb" 1.0 0.45359237 rfl rfl,
   scaled_conversion_formula.2.2.2.1 1 "kg" "xx" (Or.inr rfl)⟩

/-- C4: the single-shot entry point exits with status 0 on success, help
display (help token first or fewer than three arguments) and clean
interactive exit; with status 1 exactly when, on a non-help three-plus
argument invocation, the first argument is not parseable as a number; and
with status 2 exactly when, on such an invocation, the dispatcher fails. -/
theorem main_exit_codes :
    main [] = 0 ∧
    (∀ (a : String) (rest : List String),
        a ∈ helpTokens ∨ rest.length < 2 → main (a :: rest) = 0) ∧
    (∀ (a f t : String) (rest : List String) (v r : ℚ),
        a ∉ helpTokens → parseFloat a = some v → detect_and_convert v f t = .ok r →
        main (a :: f :: t :: rest) = 0) ∧
    (∀ argv, main argv = 1 ↔
        ∃ a f t rest, argv = a :: f :: t :: rest ∧ a ∉ helpTokens ∧ parseFloat a = none) ∧
    (∀ argv, main argv = 2 ↔
        ∃ a f t rest v e, argv = a :: f :: t :: rest ∧ a ∉ helpTokens ∧
          parseFloat a = some v ∧ detect_and_convert v f t = .error e) := by
  refine ⟨rfl, ?_, ?_, ?_, ?_⟩
  · intro a rest h
    simp [main, h]
  · intro a f t rest v r hh hp hd
    simp [main, hh, hp, hd]
  · intro argv
    constructor
    · intro h
      match argv with
      | [] => simp [main] at h
      | a :: rest =>
        by_cases hg : a ∈ helpTokens ∨ rest.length < 2
        · simp [main, hg] at h
        · push_neg at hg
          obtain ⟨hh, hl⟩ := hg
          match rest with
          | [] => simp at hl
          | [f] => simp at hl
          | f :: t :: rest1 =>
            cases hp : parseFloat a with
            | none => exact ⟨a, f, t, rest1, rfl, hh, hp⟩
            | some v =>
              have hlen2 : ¬ (rest1.length + 1 + 1 < 2) := by omega
              rcases hd : detect_and_convert v f t with e | w
              · simp [main, hh, hp, hd, hlen2] at h
              · simp [main, hh, hp, hd, hlen2] at h
    · rintro ⟨a, f, t, rest, rfl, hh, hp⟩
      simp [main, hh, hp]
  · intro argv
    constructor
    · intro h
      match argv with
      | [] => simp [main] at h
      | a :: rest =>
        by_cases hg : a ∈ helpTokens ∨ rest.length < 2
        · simp [main, hg] at h
        · push_neg at hg
          obtain ⟨hh, hl⟩ := hg
          match rest with
          | [] => simp at hl
          | [f] => simp at hl
          | f :: t :: rest1 =>
            cases hp : parseFloat a with
            | none =>
              have hlen2 : ¬ (rest1.length + 1 + 1 < 2) := by omega
              simp [main, hh, hp, hlen2] at h
            | some v =>
              rcases hd : detect_and_convert v f t with e | w
              · exact ⟨a, f, t, rest1, v, e, rfl, hh, hp, hd⟩
              · simp [main, hh, hp, hd] at h
    · rintro ⟨a, f, t, rest, v, e, rfl, hh, hp, hd⟩
      simp [main, hh, hp, hd]

/-- Witness for C4: a help invocation exits 0, a successful conversion exits
0, a non-numeric first argument exits 1, a cross-category pair exits 2. -/
theorem main_exit_codes_witness :
    main ["help"] = 0 ∧
    main ["100", "cm", "m"] = 0 ∧
    main ["abc", "cm", "m"] = 1 ∧
    main ["1", "cm", "kg"] = 2 :=
  ⟨main_exit_codes.2.1 "help" [] (Or.inl (by decide)),
   main_exit_codes.2.2.1 "100" "cm" "m" [] 100 (100 * 0.01 / 1.0) (by decide)
     (by simp [parseFloat, pyStrip, parseUnsignedChars, splitOnCharAux, digitsVal]) rfl,
   (main_exit_codes.2.2.2.1 ["abc", "cm", "m"]).mpr
     ⟨"abc", "cm", "m", [], rfl, by decide, rfl⟩,
   (main_exit_codes.2.2.2.2 ["1", "cm", "kg"]).mpr
     ⟨"1", "cm", "kg", [], 1, incompatibleMsg, rfl, by decide,
      by simp [parseFloat, pyStrip, parseUnsignedChars, splitOnCharAux, digitsVal], rfl⟩⟩

/-- C5: temperature conversion depends only on the uppercased symbols
(case-insensitive matching), so a lowercase temperature symbol still
converts, while a wrongly-cased length or weight symbol is not recognized
by the (case-sensitive) length and weight steps and the dispatch fails. -/
theorem temperature_case_insensitive_scaled_case_sensitive :
    (∀ (v : ℚ) (f₁ f₂ t₁ t₂ : String),
        pyUpper f₁ = pyUpper f₂ → pyUpper t₁ = pyUpper t₂ →
        convert_temperature v f₁ t₁ = convert_temperature v f₂ t₂) ∧
    (∀ v : ℚ, detect_and_convert v "c" "f" = .ok (c_to_f v)) ∧
    (∀ v : ℚ, detect_and_convert v "k" "c" = .ok (k_to_c v)) ∧
    (∀ v : ℚ, detect_and_convert v "CM" "M" = .error incompatibleMsg) ∧
    (∀ v : ℚ, detect_and_convert v "KG" "G" = .error incompatibleMsg) := by
  refine ⟨?_, fun v => rfl, fun v => rfl, fun v => rfl, fun v => rfl⟩
  intro v f₁ f₂ t₁ t₂ hf ht
  simp only [convert_temperature, hf, ht]

/-- Witness for C5: the differently-cased pairs (c, K) and (C, k) convert
identically. -/
theorem temperature_case_insensitive_scaled_case_sensitive_witness :
    convert_temperature 5 "c" "K" = convert_temperature 5 "C" "k" :=
  temperature_case_insensitive_scaled_case_sensitive.1 5 "c" "C" "K" "k" rfl rfl

/-- C6: for every symbol in the length table, converting any value from the
symbol to itself goes through the normalize-then-denormalize round trip
(v·r)/r and returns the value exactly (over the exact rational model). -/
theorem length_same_unit_identity :
    ∀ (u : String) (r : ℚ), dictGet LENGTH_TO_METER u = some r →
      ∀ v : ℚ, convert_length v u u = .ok (v * r / r) ∧ v * r / r = v ∧
        detect_and_convert v u u = .ok v := by
  intro u r h v
  have hr := (length_factor_pos u r h).ne'
  refine ⟨by simp [convert_length, h], ?_, ?_⟩
  · rw [mul_div_assoc, div_self hr, mul_one]
  · simp [detect_and_convert, h, convert_length, mul_div_assoc, div_self hr]

/-- Witness for C6: cm→cm at value 7 rounds through meters and returns 7. -/
theorem length_same_unit_identity_witness :
    convert_length 7 "cm" "cm" = .ok (7 * 0.01 / 0.01) ∧ (7 : ℚ) * 0.01 / 0.01 = 7 ∧
      detect_and_convert 7 "cm" "cm" = .ok 7 :=
  length_same_unit_identity "cm" 0.01 rfl 7

/-- C7: for every pair of symbols in the length table, converting and then
converting back returns the original value exactly (over the exact rational
model): the scale-factor conversion is invertible. -/
theorem length_conversion_invertible :
    ∀ (u₁ u₂ : String) (a b : ℚ),
      dictGet LENGTH_TO_METER u₁ = some a → dictGet LENGTH_TO_METER u₂ = some b →
      ∀ v : ℚ, ∃ w, detect_and_convert v u₁ u₂ = .ok w ∧ detect_and_convert w u₂ u₁ = .ok v := by
  intro u₁ u₂ a b h₁ h₂ v
  have ha := (length_factor_pos u₁ a h₁).ne'
  have hb := (length_factor_pos u₂ b h₂).ne'
  refine ⟨v * a / b, ?_, ?_⟩
  · simp [detect_and_convert, h₁, h₂, convert_length]
  · simp [detect_and_convert, h₁, h₂, convert_length]
    field_simp

/-- Witness for C7: mi→ft and back at value 1 returns 1. -/
theorem length_conversion_invertible_witness :
    ∃ w, detect_and_convert 1 "mi" "ft" = .ok w ∧ detect_and_convert w "ft" "mi" = .ok 1 :=
  length_conversion_invertible "mi" "ft" 1609.344 0.3048 rfl rfl 1

/-- C8: the three category symbol sets are pairwise disjoint: no symbol is in
both the length and weight tables, and no length or weight symbol uppercases
to one of the temperature symbols C, F, K. -/
theorem category_tables_disjoint :
    (∀ k ∈ LENGTH_TO_METER.map Prod.fst, k ∉ WEIGHT_TO_KG.map Prod.fst) ∧
    (∀ k ∈ LENGTH_TO_METER.map Prod.fst, pyUpper k ∉ TEMP_FUNCS.map Prod.fst) ∧
    (∀ k ∈ WEIGHT_TO_KG.map Prod.fst, pyUpper k ∉ TEMP_FUNCS.map Prod.fst) := by
  decide

/-- Witness for C8: m is not a weight symbol, and neither KG nor M is a
temperature symbol. -/
theorem category_tables_disjoint_witness :
    "m" ∉ WEIGHT_TO_KG.map Prod.fst ∧
    pyUpper "m" ∉ TEMP_FUNCS.map Prod.fst ∧
    pyUpper "kg" ∉ TEMP_FUNCS.map Prod.fst :=
  ⟨category_tables_disjoint.1 "m" (by decide),
   category_tables_disjoint.2.1 "m" (by decide),
   category_tables_disjoint.2.2 "kg" (by decide)⟩

/-- C9: whenever the dispatcher selects a category branch, its membership
guards make the per-category converter's own lookups succeed, so the only
error `detect_and_convert` can ever return is the dispatcher-level
incompatible-or-unsupported-units message — never an internal
unsupported-unit message. -/
theorem converter_internal_errors_unreachable :
    ∀ (v : ℚ) (f t e : String),
      detect_and_convert v f t = .error e → e = incompatibleMsg := by
  intro v f t e h
  unfold detect_and_convert at h
  split_ifs at h with h1 h2 h3
  · rw [Bool.and_eq_true] at h1
    obtain ⟨hf, ht⟩ := h1
    cases hof : dictGet LENGTH_TO_METER f with
    | none => rw [hof] at hf; simp at hf
    | some a =>
      cases hot : dictGet LENGTH_TO_METER t with
      | none => rw [hot] at ht; simp at ht
      | some b => rw [convert_length, hof, hot] at h; cases h
  · rw [Bool.and_eq_true] at h2
    obtain ⟨hf, ht⟩ := h2
    cases hof : dictGet WEIGHT_TO_KG f with
    | none => rw [hof] at hf; simp at hf
    | some a =>
      cases hot : dictGet WEIGHT_TO_KG t with
      | none => rw [hot] at ht; simp at ht
      | some b => rw [convert_weight, hof, hot] at h; cases h
  · rw [Bool.and_eq_true] at h3
    obtain ⟨hf, ht⟩ := h3
    have hf2 : pyUpper f = "C" ∨ pyUpper f = "F" ∨ pyUpper f = "K" := by
      by_contra hc
      push_neg at hc
      obtain ⟨hc1, hc2, hc3⟩ := hc
      simp [dictGet, TEMP_FUNCS, hc1, hc2, hc3] at hf
    have ht2 : pyUpper t = "C" ∨ pyUpper t = "F" ∨ pyUpper t = "K" := by
      by_contra hc
      push_neg at hc
      obtain ⟨hc1, hc2, hc3⟩ := hc
      simp [dictGet, TEMP_FUNCS, hc1, hc2, hc3] at ht
    rcases hf2 with hf2 | hf2 | hf2 <;> rcases ht2 with ht2 | ht2 | ht2 <;>
      simp [convert_temperature, hf2, ht2, dictGet, TEMP_FUNCS] at h
  · injection h with h
    exact h.symm

/-- Witness for C9: the error the dispatcher returns on the cross-category
pair cm→kg is the dispatcher-level message. -/
theorem converter_internal_errors_unreachable_witness :
    incompatibleMsg = incompatibleMsg :=
  converter_internal_errors_unreachable 1 "cm" "kg" incompatibleMsg rfl

/-- C10: in interactive mode a control word is recognized exactly when the
whole stripped lowercased line equals it; a multi-token line starting with a
control word is instead treated as a conversion attempt (three tokens
required, first parsed as a number, invalid numbers reported and the loop
continued). -/
theorem interactive_control_word_recognition :
    (∀ line, process_line line = .exitCmd ↔ pyLower (pyStrip line) ∈ ["exit", "quit"]) ∧
    (∀ line, process_line line = .helpCmd ↔ pyLower (pyStrip line) ∈ ["help", "h", "?"]) ∧
    process_line "help cm m" = .invalidNumber ∧
    process_line "exit now please" = .invalidNumber ∧
    process_line "quit now" = .usage ∧
    process_line "  exit  " = .exitCmd ∧
    process_line "QUIT" = .exitCmd := by
  refine ⟨?_, ?_, by rfl, by rfl, by rfl, by rfl, by rfl⟩
  · intro line
    by_cases h0 : pyStrip line = ""
    · simp [process_line, h0, pyLower]
    · by_cases h1 : pyLower (pyStrip line) ∈ ["exit", "quit"]
      · simp [process_line, h0, h1]
      · simp only [process_line, h0, h1, if_false, if_neg]
        by_cases h2 : pyLower (pyStrip line) ∈ ["help", "h", "?"]
        · simp [h2, h1]
        · simp only [h2, if_false, if_neg]
          constructor
          · intro h
            exfalso
            revert h
            split <;> intro h <;> (try split at h) <;> (try split at h) <;> simp_all
          · intro h
            exact h.elim
  · intro line
    by_cases h0 : pyStrip line = ""
    · simp [process_line, h0, pyLower]
    · by_cases h1 : pyLower (pyStrip line) ∈ ["exit", "quit"]
      · have h2 : pyLower (pyStrip line) ∉ ["help", "h", "?"] := by
          intro hc
          rcases List.mem_cons.mp h1 with h | h1x
          · rw [h] at hc; simp at hc
          · rcases List.mem_cons.mp h1x with h | h2x
            · rw [h] at hc; simp at hc
            · simp at h2x
        simp [process_line, h0, h1, h2]
      · by_cases h2 : pyLower (pyStrip line) ∈ ["help", "h", "?"]
        · simp [process_line, h0, h1, h2]
        · simp only [process_line, h0, h1, h2, if_false, if_neg]
          constructor
          · intro h
            exfalso
            revert h
            split <;> intro h <;> (try split at h) <;> (try split at h) <;> simp_all
          · intro h
            exact h.elim

end UnitConverter
